import Mathlib

/-!
Formal model of `plugin.py` from the sublime-rest-client repository.

The file shallowly embeds the plugin's execution core: the background
worker (`HttpRequestThread`), the cooperative poller (`poll` and its
throbber state advance), the result renderers (`on_success`, `on_error`),
and the output-panel write primitive (`update_rest_response_panel`).
External collaborators (the HTTP transport, the Sublime Text view API,
Python's clock) are modelled as explicit inputs: the transport call is an
`AdapterResult` value (normal return or raised exception), clock readings
are rational numbers passed in, and the view is an explicit `View` state.
-/

/-- Width of the animated throbber field (`THROBBER_WIDTH = 6`). -/
def THROBBER_WIDTH : Nat := 6

/-- Refresh delay between poller ticks in milliseconds (`THROBBER_REFRESH_RATE = 100`). -/
def THROBBER_REFRESH_RATE : Nat := 100

/-- Name of the output panel (`PANEL_NAME`). -/
def PANEL_NAME : String := "REST Client Response"

/-- Modelled from the spec: the parsed request value (`rest_client.request.Request`,
whose module is not present under `src/`).  Per the spec's data model it carries a
method, a URL, ordered headers and an optional body; `plugin.py` reads only
`method` and `url`. -/
structure Request where
  method : String
  url : String
  headers : List (String × String)
  body : Option String
  deriving DecidableEq

/-- Modelled from the spec: the response value (`rest_client.Response`, whose module
is not present under `src/`): numeric status code, headers as an ordered mapping
(insertion order preserved for rendering), body text.  `plugin.py` reads
`status`, `headers.items()` and `data`. -/
structure Response where
  status : Nat
  headers : List (String × String)
  data : String
  deriving DecidableEq

/-- A Python exception value, abstracted to the one observation `plugin.py`
makes of it: its `repr` string (rendered by `on_error`). -/
structure PyException where
  pyRepr : String
  deriving DecidableEq

/-- The result of one invocation of the transport adapter `client.request`:
either a normal return carrying a `Response`, or a raised exception together
with the traceback text that `traceback.format_exc()` captures at the point
of failure. -/
inductive AdapterResult where
  | ok (resp : Response)
  | raises (exc : PyException) (tracebackText : String)
  deriving DecidableEq

/-- The plugin's exception type (`class RestException(Exception)`), carrying
its message. -/
structure RestException where
  msg : String
  deriving DecidableEq

/-- The mutable state of `HttpRequestThread`: the fields set in `__init__`
(`request`, `success`, `response`, `error`), the `elapsed` attribute set by
`run`, and the thread's liveness (`is_alive()`), which becomes false when
`run` returns. -/
structure HttpRequestThread where
  request : Request
  success : Option Bool
  response : Option Response
  error : Option (PyException × String)
  elapsed : Option Rat
  alive : Bool
  deriving DecidableEq

/-- The state of a freshly constructed and started `HttpRequestThread`:
`__init__` sets `success`, `response` and `error` to `None`; after
`thread.start()` the thread is alive and `run` has not yet recorded anything. -/
def startThread (request : Request) : HttpRequestThread :=
  { request := request, success := none, response := none, error := none,
    elapsed := none, alive := true }

/-- The net effect of `HttpRequestThread.run` on the thread's fields, given the
adapter outcome and the two `perf_counter` readings taken immediately before
and after the adapter call.  On normal return it stores the response and sets
`success = True`; on an exception it stores `(exc, traceback.format_exc())`
and sets `success = False`; the `finally` block records `elapsed` in both
cases.  Nothing escapes: `run` returns a state for every adapter outcome, and
the adapter is invoked exactly once (no retry). -/
def HttpRequestThread.run (t : HttpRequestThread) (r : AdapterResult)
    (tStart tEnd : Rat) : HttpRequestThread :=
  match r with
  | .ok resp =>
      { t with response := some resp, success := some true,
               elapsed := some (tEnd - tStart) }
  | .raises exc tb =>
      { t with error := some (exc, tb), success := some false,
               elapsed := some (tEnd - tStart) }

/-- Accessor `get_response`: raises `RestException` when `success is None or
response is None`, otherwise returns the response. -/
def HttpRequestThread.get_response (t : HttpRequestThread) :
    Except RestException Response :=
  match t.success, t.response with
  | some _, some r => .ok r
  | _, _ => .error ⟨"Attempted to retrieve response before completion"⟩

/-- Accessor `get_error`: raises `RestException` when `success is None or
error is None`, otherwise returns the `(exception, traceback)` pair. -/
def HttpRequestThread.get_error (t : HttpRequestThread) :
    Except RestException (PyException × String) :=
  match t.success, t.error with
  | some _, some e => .ok e
  | _, _ => .error ⟨"Attempted to retrieve error before completion"⟩

/-- The worker thread's execution as a sequence of the states visible at its
atomic write boundaries, in program order of `run`: the running state (inside
the adapter call), then the outcome-value write (line `self.response = ...` or
`self.error = ...`), then the `self.success` write, then the `finally` write of
`elapsed`, and finally thread death (`is_alive()` turning false), which happens
only after `run` has returned. -/
def workerTrace (req : Request) (r : AdapterResult) (tStart tEnd : Rat) :
    List HttpRequestThread :=
  let t0 := startThread req
  match r with
  | .ok resp =>
      let t1 := { t0 with response := some resp }
      let t2 := { t1 with success := some true }
      let t3 := { t2 with elapsed := some (tEnd - tStart) }
      [t0, t1, t2, t3, { t3 with alive := false }]
  | .raises exc tb =>
      let t1 := { t0 with error := some (exc, tb) }
      let t2 := { t1 with success := some false }
      let t3 := { t2 with elapsed := some (tEnd - tStart) }
      [t0, t1, t2, t3, { t3 with alive := false }]

/-- The final state of the worker: `run` has returned and the thread is dead. -/
def workerFinal (req : Request) (r : AdapterResult) (tStart tEnd : Rat) :
    HttpRequestThread :=
  { (startThread req).run r tStart tEnd with alive := false }

/-- The advance performed at the end of each non-terminal `poll` tick:
`position = position + step`, then `step` is reset to `1` when the new
position is `0` and to `-1` when it is `THROBBER_WIDTH - 1`, otherwise left
unchanged. -/
def pollStep : Int × Int → Int × Int
  | (position, step) =>
      let position := position + step
      if position = 0 then (position, 1)
      else if position = (THROBBER_WIDTH : Int) - 1 then (position, -1)
      else (position, step)

/-- What one `poll(position, step)` tick does, classified by its observable
effect.  `tick` carries the position rendered by `update_throbber` and the
`(position, step)` pair passed to the rescheduled call. -/
inductive PollResult where
  | dispatchSuccess (resp : Option Response)
  | dispatchError (err : Option (PyException × String))
  | tick (rendered : Int) (next : Int × Int)
  deriving DecidableEq

/-- One tick of `poll`: if the thread is still alive, render the throbber at
the current position and reschedule with the advanced state; otherwise
dispatch `on_success` with `thread.response` when `thread.success` is truthy
(Python: `if thread.success`, true exactly for `True`, not for `None`/`False`)
and `on_error` with `thread.error` otherwise. -/
def poll (t : HttpRequestThread) (position step : Int) : PollResult :=
  if t.alive then .tick position (pollStep (position, step))
  else if t.success = some true then .dispatchSuccess t.response
  else .dispatchError t.error

/-- The poller's `(position, step)` state after `n` ticks, starting from the
initial call `poll(0, 1)` scheduled by `send_request`.  The position rendered
at tick `n` is `(throbberIter n).1`. -/
def throbberIter : Nat → Int × Int
  | 0 => (0, 1)
  | n + 1 => pollStep (throbberIter n)

/-- Written from the spec's words: the expected rendered-position sequence
`0,1,2,3,4,5,4,3,2,1,0,1,...`, i.e. the zigzag of period 10. -/
def zigzagSeq (n : Nat) : Int :=
  if n % 10 ≤ 5 then ((n % 10 : Nat) : Int) else ((10 - n % 10 : Nat) : Int)

/-- The members of Python's `http.HTTPStatus` enumeration (CPython 3.8, the
Sublime Text plugin host) with their reason phrases; `HTTPStatus(code)` raises
`ValueError` exactly when this is `none`. -/
def httpStatusPhrase (code : Nat) : Option String :=
  match code with
  | 100 => some "Continue"
  | 101 => some "Switching Protocols"
  | 102 => some "Processing"
  | 200 => some "OK"
  | 201 => some "Created"
  | 202 => some "Accepted"
  | 203 => some "Non-Authoritative Information"
  | 204 => some "No Content"
  | 205 => some "Reset Content"
  | 206 => some "Partial Content"
  | 207 => some "Multi-Status"
  | 208 => some "Already Reported"
  | 226 => some "IM Used"
  | 300 => some "Multiple Choices"
  | 301 => some "Moved Permanently"
  | 302 => some "Found"
  | 303 => some "See Other"
  | 304 => some "Not Modified"
  | 305 => some "Use Proxy"
  | 307 => some "Temporary Redirect"
  | 308 => some "Permanent Redirect"
  | 400 => some "Bad Request"
  | 401 => some "Unauthorized"
  | 402 => some "Payment Required"
  | 403 => some "Forbidden"
  | 404 => some "Not Found"
  | 405 => some "Method Not Allowed"
  | 406 => some "Not Acceptable"
  | 407 => some "Proxy Authentication Required"
  | 408 => some "Request Timeout"
  | 409 => some "Conflict"
  | 410 => some "Gone"
  | 411 => some "Length Required"
  | 412 => some "Precondition Failed"
  | 413 => some "Request Entity Too Large"
  | 414 => some "Request-URI Too Long"
  | 415 => some "Unsupported Media Type"
  | 416 => some "Requested Range Not Satisfiable"
  | 417 => some "Expectation Failed"
  | 421 => some "Misdirected Request"
  | 422 => some "Unprocessable Entity"
  | 423 => some "Locked"
  | 424 => some "Failed Dependency"
  | 426 => some "Upgrade Required"
  | 428 => some "Precondition Required"
  | 429 => some "Too Many Requests"
  | 431 => some "Request Header Fields Too Large"
  | 451 => some "Unavailable For Legal Reasons"
  | 500 => some "Internal Server Error"
  | 501 => some "Not Implemented"
  | 502 => some "Bad Gateway"
  | 503 => some "Service Unavailable"
  | 504 => some "Gateway Timeout"
  | 505 => some "HTTP Version Not Supported"
  | 506 => some "Variant Also Negotiates"
  | 507 => some "Insufficient Storage"
  | 508 => some "Loop Detected"
  | 510 => some "Not Extended"
  | 511 => some "Network Authentication Required"
  | _ => none

/-- The header block of `on_success`: each `(header, value)` pair rendered as
one line `"{header}: {value}"`, joined with newlines, insertion order kept. -/
def headersText (headers : List (String × String)) : String :=
  String.intercalate "\n" (headers.map fun hv => hv.1 ++ ": " ++ hv.2)

/-- The text computed by `RestRequestCommand.on_success` before it is written
to the panel: a three-element blank-line join of the status line, the header
block and the body.  `HTTPStatus(response.status)` raises `ValueError` for a
code outside the enumeration, modelled as the `Except.error` branch carrying
Python's message text, in which case nothing is rendered. -/
def on_success (req : Request) (resp : Response) : Except String String :=
  match httpStatusPhrase resp.status with
  | none => .error (toString resp.status ++ " is not a valid HTTPStatus")
  | some phrase =>
      .ok (String.intercalate "\n\n"
        [req.method ++ " " ++ req.url ++ " " ++ toString resp.status ++ " " ++ phrase,
         headersText resp.headers,
         resp.data])

/-- The text computed by `RestRequestCommand.on_error`: a three-element
blank-line join of the error line, `repr(exception)` and the traceback text. -/
def on_error (req : Request) (exc : PyException) (trace : String) : String :=
  String.intercalate "\n\n"
    ["REST Client: Error on request to " ++ req.method ++ " " ++ req.url,
     exc.pyRepr,
     trace]

/-- The output panel view: its text content, the scratch flag
(`set_scratch`), the assigned content type (`assign_syntax`) and the
selection set (`sel()`). -/
structure View where
  content : List Char
  scratch : Bool
  contentTypeId : Option String
  selection : List (Nat × Nat)
  deriving DecidableEq

/-- Python's `x or d` for `x : Optional[int]`: falls back to `d` when `x` is
`None` and also when `x` is the falsy integer `0`. -/
def pyOr (x : Option Nat) (d : Nat) : Nat :=
  match x with
  | none => d
  | some 0 => d
  | some n => n

/-- The effect of `UpdateRestResponsePanelCommand.run`: mark the view as
scratch, assign the HTTP-response content type, replace the region
`[region_start or 0, region_end or view.size())` with `text`, then clear the
selection. -/
def update_rest_response_panel (v : View) (text : List Char)
    (region_start region_end : Option Nat) : View :=
  let v1 : View := { v with scratch := true,
                            contentTypeId := some "scope:source.http-response" }
  let rs := pyOr region_start 0
  let re := pyOr region_end v1.content.length
  { v1 with content := v1.content.take rs ++ text ++ v1.content.drop re,
            selection := [] }

/-- Python's `' ' * n` for an `int` `n`: the empty string when `n` is
negative. -/
def intSpaces (i : Int) : String :=
  ⟨List.replicate i.toNat ' '⟩

/-- The initial frame written by `send_request`: the blank-line join of
`"{method} {url}"` and `"Waiting for response [{' ' * THROBBER_WIDTH}]"`. -/
def initialFrame (req : Request) : String :=
  String.intercalate "\n\n"
    [req.method ++ " " ++ req.url,
     "Waiting for response [" ++ intSpaces (THROBBER_WIDTH : Int) ++ "]"]

/-- `throbber_end = len(output) - 1` in `send_request`. -/
def throbberEnd (req : Request) : Nat := (initialFrame req).length - 1

/-- `throbber_start = throbber_end - THROBBER_WIDTH` in `send_request`. -/
def throbberStart (req : Request) : Nat := throbberEnd req - THROBBER_WIDTH

/-- The throbber string built by `update_throbber`:
`f"{' ' * position}={' ' * (THROBBER_WIDTH - 1 - position)}"`. -/
def update_throbber (position : Int) : String :=
  intSpaces position ++ "=" ++ intSpaces ((THROBBER_WIDTH : Int) - 1 - position)

/-- Portion of the initial frame that precedes the throbber's character span:
everything up to and including the opening bracket. -/
def frameHead (req : Request) : List Char :=
  (req.method ++ " " ++ req.url).data ++ "\n\n".data ++ "Waiting for response [".data

/-- What the spec requires of an observed completed state: the recorded
outcome corresponds to the adapter call's actual result — `success = True`
with the returned response, or `success = False` with the raised exception
and its traceback. -/
def outcomeMatches (r : AdapterResult) (s : HttpRequestThread) : Prop :=
  match r with
  | .ok resp => s.success = some true ∧ s.response = some resp
  | .raises exc tb => s.success = some false ∧ s.error = some (exc, tb)

/-- Concrete request fixture used by the example corollaries. -/
def reqEx : Request := ⟨"GET", "https://example.test/get", [], none⟩

/-- Concrete response fixture used by the example corollaries. -/
def respEx : Response := ⟨200, [("Date", "X")], "hello"⟩

/-- Concrete exception fixture used by the example corollaries. -/
def excEx : PyException := ⟨"ConnectionRefusedError(111)"⟩

/-- Concrete view fixture holding the initial frame written by `send_request`. -/
def viewEx : View := ⟨(initialFrame reqEx).data, false, none, []⟩

/-- The view after the first throbber tick's write (position 0). -/
def viewEx1 : View :=
  update_rest_response_panel viewEx (update_throbber 0).data
    (some (throbberStart reqEx)) (some (throbberEnd reqEx))

/-! ## Helper lemmas -/

/-- A three-element blank-line join is the concatenation of the three blocks
with the separator between them. -/
theorem intercalate_three (a b c : String) :
    String.intercalate "\n\n" [a, b, c] = a ++ "\n\n" ++ b ++ "\n\n" ++ c := by
  simp [String.intercalate, String.intercalate.go]

/-- A two-element blank-line join is the concatenation of the two blocks with
the separator between them. -/
theorem intercalate_two (a b : String) :
    String.intercalate "\n\n" [a, b] = a ++ "\n\n" ++ b := by
  simp [String.intercalate, String.intercalate.go]

/-- The poller's state sequence has period 10. -/
theorem throbberIter_add_ten (n : Nat) : throbberIter (n + 10) = throbberIter n := by
  induction n with
  | zero => decide
  | succ n ih =>
      show pollStep (throbberIter (n + 10)) = pollStep (throbberIter n)
      rw [ih]

/-- The poller's state at tick `n` is its state at tick `n % 10`. -/
theorem throbberIter_mod (n : Nat) : throbberIter n = throbberIter (n % 10) := by
  induction n using Nat.strong_induction_on with
  | _ n ih =>
      by_cases h : n < 10
      · rw [Nat.mod_eq_of_lt h]
      · have h10 : n - 10 + 10 = n := Nat.sub_add_cancel (le_of_not_lt h)
        have hlt : n - 10 < n := by omega
        have hm : (n - 10) % 10 = n % 10 := by omega
        calc throbberIter n = throbberIter (n - 10 + 10) := by rw [h10]
          _ = throbberIter (n - 10) := throbberIter_add_ten _
          _ = throbberIter ((n - 10) % 10) := ih _ hlt
          _ = throbberIter (n % 10) := by rw [hm]

/-- Python's `some n or 0` is always `n`. -/
theorem pyOr_some_zero (n : Nat) : pyOr (some n) 0 = n := by
  cases n <;> rfl

/-- Python's `some n or d` is `n` whenever `n` is nonzero. -/
theorem pyOr_some (n d : Nat) (h : n ≠ 0) : pyOr (some n) d = n := by
  cases n with
  | zero => exact absurd rfl h
  | succ m => rfl

/-- The initial frame decomposes into the head, the blank throbber field and
the closing bracket. -/
theorem initialFrame_data (req : Request) :
    (initialFrame req).data =
      frameHead req ++ List.replicate THROBBER_WIDTH ' ' ++ [']'] := by
  simp [initialFrame, frameHead, intSpaces, intercalate_two, String.data_append,
    THROBBER_WIDTH, List.append_assoc]

/-- The throbber span's right endpoint sits just before the closing bracket. -/
theorem throbberEnd_eq (req : Request) :
    throbberEnd req = (frameHead req).length + THROBBER_WIDTH := by
  have hlen : (initialFrame req).length = (initialFrame req).data.length := rfl
  unfold throbberEnd
  rw [hlen, initialFrame_data]
  simp [THROBBER_WIDTH]

/-- The throbber span's left endpoint sits right after the opening bracket. -/
theorem throbberStart_eq (req : Request) :
    throbberStart req = (frameHead req).length := by
  unfold throbberStart
  rw [throbberEnd_eq]
  simp

/-- The characters of a rendered throbber string. -/
theorem update_throbber_data (p : Int) :
    (update_throbber p).data =
      List.replicate p.toNat ' ' ++ ['='] ++
        List.replicate ((THROBBER_WIDTH : Int) - 1 - p).toNat ' ' := by
  simp [update_throbber, intSpaces, String.data_append]

/-- A rendered throbber string for an in-range position has exactly
`THROBBER_WIDTH` characters. -/
theorem update_throbber_length (p : Int) (h0 : 0 ≤ p)
    (h5 : p ≤ (THROBBER_WIDTH : Int) - 1) :
    (update_throbber p).data.length = THROBBER_WIDTH := by
  rw [update_throbber_data]
  simp only [List.length_append, List.length_replicate, List.length_cons,
    List.length_nil]
  simp only [THROBBER_WIDTH] at h5 ⊢
  omega

/-! ## Claim theorems -/

/-- Claim C1: for every request and every exception raised by the transport
adapter call, `HttpRequestThread.run` catches the exception and records a
failure outcome holding the exception value and the full formatted traceback
text, with `elapsed` measured across the adapter call (the difference of the
readings taken immediately before and after it); on normal return it records a
success outcome holding the response.  Both equations produce a final state
for every adapter outcome — nothing escapes `run` — and the single adapter
result is recorded exactly once, never retried. -/
theorem worker_run_records_outcome (req : Request) (tStart tEnd : Rat) :
    (∀ resp : Response,
      (startThread req).run (.ok resp) tStart tEnd =
        { request := req, success := some true, response := some resp,
          error := none, elapsed := some (tEnd - tStart), alive := true }) ∧
    (∀ (exc : PyException) (tb : String),
      (startThread req).run (.raises exc tb) tStart tEnd =
        { request := req, success := some false, response := none,
          error := some (exc, tb), elapsed := some (tEnd - tStart),
          alive := true }) := by
  exact ⟨fun _ => rfl, fun _ _ => rfl⟩

/-- Claim C5: before the worker signals completion its outcome is
unobservable — both accessors fail on the started-but-unfinished state — and
after `run` records the outcome exactly one of the success side
(`success = True` with a response) and the failure side (`success = False`
with an error and diagnostic) holds: never both, never neither. -/
theorem outcome_exactly_one_side (req : Request) (r : AdapterResult)
    (tStart tEnd : Rat) :
    ((startThread req).get_response =
        .error ⟨"Attempted to retrieve response before completion"⟩) ∧
    ((startThread req).get_error =
        .error ⟨"Attempted to retrieve error before completion"⟩) ∧
    (let t := (startThread req).run r tStart tEnd
     ((t.success = some true ∧ t.response.isSome = true ∧ t.error = none) ∨
      (t.success = some false ∧ t.error.isSome = true ∧ t.response = none)) ∧
     ¬(t.response.isSome = true ∧ t.error.isSome = true) ∧
     t.success.isSome = true) := by
  refine ⟨rfl, rfl, ?_⟩
  cases r <;>
    simp [HttpRequestThread.run, startThread]

/-- Claim C6: each outcome accessor called before the worker has completed
(`success` still `None`) fails deterministically with the plugin's
`RestException`, and once completion is signalled the matching accessor
returns the populated value. -/
theorem accessors_guarded_by_completion :
    (∀ t : HttpRequestThread, t.success = none →
        t.get_response =
          .error ⟨"Attempted to retrieve response before completion"⟩ ∧
        t.get_error =
          .error ⟨"Attempted to retrieve error before completion"⟩) ∧
    (∀ (req : Request) (resp : Response) (tStart tEnd : Rat),
        ((startThread req).run (.ok resp) tStart tEnd).get_response = .ok resp) ∧
    (∀ (req : Request) (exc : PyException) (tb : String) (tStart tEnd : Rat),
        ((startThread req).run (.raises exc tb) tStart tEnd).get_error =
          .ok (exc, tb)) := by
  refine ⟨fun t h => ?_, fun _ _ _ _ => rfl, fun _ _ _ _ _ => rfl⟩
  cases t.response <;> cases t.error <;>
    simp [HttpRequestThread.get_response, HttpRequestThread.get_error, h]

/-- Witness for C6 at concrete inputs: the fresh worker's accessors fail, and
after a successful run (respectively a failing run) the matching accessor
returns the recorded value. -/
theorem accessors_guarded_by_completion_witness :
    ((startThread reqEx).get_response =
        .error ⟨"Attempted to retrieve response before completion"⟩ ∧
     (startThread reqEx).get_error =
        .error ⟨"Attempted to retrieve error before completion"⟩) ∧
    ((startThread reqEx).run (.ok respEx) 0 1).get_response = .ok respEx ∧
    ((startThread reqEx).run (.raises excEx "TB") 0 1).get_error =
      .ok (excEx, "TB") :=
  ⟨accessors_guarded_by_completion.1 (startThread reqEx) rfl,
   accessors_guarded_by_completion.2.1 reqEx respEx 0 1,
   accessors_guarded_by_completion.2.2 reqEx excEx "TB" 0 1⟩

/-- Claim C2: for every tick count of a poller started at position 0 with
direction +1 and width 6, the rendered position stays within
`[0, THROBBER_WIDTH - 1]`, the position changes by exactly the current
one-unit step on each non-terminal tick (the step is always `+1` or `-1`),
the direction flips to `+1` exactly when the position reaches 0 and to `-1`
exactly when it reaches `THROBBER_WIDTH - 1` and nowhere else, and the
rendered position sequence is the zigzag `0,1,2,3,4,5,4,3,2,1,0,1,...`. -/
theorem throbber_state_invariants (n : Nat) :
    (0 ≤ (throbberIter n).1 ∧ (throbberIter n).1 ≤ (THROBBER_WIDTH : Int) - 1) ∧
    ((throbberIter n).2 = 1 ∨ (throbberIter n).2 = -1) ∧
    (throbberIter (n + 1)).1 = (throbberIter n).1 + (throbberIter n).2 ∧
    (((throbberIter n).2 = -1 ∧ (throbberIter (n + 1)).2 = 1) ↔
      (throbberIter (n + 1)).1 = 0) ∧
    (((throbberIter n).2 = 1 ∧ (throbberIter (n + 1)).2 = -1) ↔
      (throbberIter (n + 1)).1 = (THROBBER_WIDTH : Int) - 1) ∧
    (throbberIter n).1 = zigzagSeq n := by
  have hmod : throbberIter n = throbberIter (n % 10) := throbberIter_mod n
  have hmod1 : throbberIter (n + 1) = throbberIter (n % 10 + 1) := by
    show pollStep (throbberIter n) = pollStep (throbberIter (n % 10))
    rw [hmod]
  have hz : zigzagSeq n = zigzagSeq (n % 10) := by
    unfold zigzagSeq
    have hmm : n % 10 % 10 = n % 10 := by omega
    rw [hmm]
  rw [hmod, hmod1, hz]
  have h10 : n % 10 < 10 := Nat.mod_lt _ (by decide)
  revert h10
  generalize n % 10 = m
  revert m
  decide

/-- Claim C3: for every request that completes successfully with a status code
that has a standard reason phrase, the rendered output is exactly three blocks
joined by a blank-line separator: the status line
`"{method} {url} {status_code} {status_phrase}"` with the standard phrase, the
response headers one per line as `"{name}: {value}"` in insertion order, and
the raw response body text unmodified. -/
theorem success_render_three_blocks (req : Request) (resp : Response)
    (phrase : String) (h : httpStatusPhrase resp.status = some phrase) :
    on_success req resp = .ok
      ((req.method ++ " " ++ req.url ++ " " ++ toString resp.status ++ " " ++ phrase)
        ++ "\n\n"
        ++ String.intercalate "\n" (resp.headers.map fun hv => hv.1 ++ ": " ++ hv.2)
        ++ "\n\n"
        ++ resp.data) := by
  simp only [on_success, h, headersText]
  rw [intercalate_three]

/-- Witness for C3 at the spec's scenario A: a 200 response renders with the
standard phrase `OK`, the header block and the body. -/
theorem success_render_three_blocks_witness :
    on_success reqEx respEx =
      .ok "GET https://example.test/get 200 OK\n\nDate: X\n\nhello" := by
  rw [success_render_three_blocks reqEx respEx "OK" rfl]
  rfl

/-- Claim C4: for every request whose adapter call raises, the rendered output
is exactly three blocks joined by a blank-line separator — the line
`"REST Client: Error on request to {method} {url}"`, the short
machine-readable `repr` of the exception, and the full diagnostic traceback
text — so the rendered text begins with that error line, and it is nonempty
whenever the diagnostic is. -/
theorem error_render_three_blocks (req : Request) (exc : PyException)
    (trace : String) (htr : trace ≠ "") :
    on_error req exc trace =
      ("REST Client: Error on request to " ++ req.method ++ " " ++ req.url)
        ++ "\n\n" ++ exc.pyRepr ++ "\n\n" ++ trace ∧
    (∃ rest : String, on_error req exc trace =
      ("REST Client: Error on request to " ++ req.method ++ " " ++ req.url)
        ++ rest) ∧
    on_error req exc trace ≠ "" := by
  have h1 : on_error req exc trace =
      ("REST Client: Error on request to " ++ req.method ++ " " ++ req.url)
        ++ "\n\n" ++ exc.pyRepr ++ "\n\n" ++ trace := by
    unfold on_error
    rw [intercalate_three]
  refine ⟨h1, ⟨"\n\n" ++ exc.pyRepr ++ "\n\n" ++ trace, ?_⟩, ?_⟩
  · rw [h1]
    simp [String.append_assoc]
  · rw [h1]
    intro hcontra
    have hlen := congrArg String.length hcontra
    simp only [String.length_append] at hlen
    have hc : ("REST Client: Error on request to ").length = 33 := rfl
    have hs : ("\n\n").length = 2 := rfl
    have he : ("".length) = 0 := rfl
    rw [hc, hs, he] at hlen
    omega

/-- Witness for C4 at the spec's scenario B shape: a connection-refused error
renders the prefixed three-block text and is nonempty. -/
theorem error_render_three_blocks_witness :
    on_error reqEx excEx "TB" =
      "REST Client: Error on request to GET https://example.test/get"
        ++ "\n\n" ++ "ConnectionRefusedError(111)" ++ "\n\n" ++ "TB" ∧
    on_error reqEx excEx "TB" ≠ "" := by
  have h := error_render_three_blocks reqEx excEx "TB" (by decide)
  refine ⟨?_, h.2.2⟩
  rw [h.1]
  rfl

/-- Claim C10: for every successfully completed request whose numeric status
code is not a member of the `HTTPStatus` enumeration, the success-rendering
step raises `ValueError` while computing the reason phrase, so no final
result is rendered even though the worker recorded a success outcome;
success rendering is total only over standard status codes. -/
theorem nonstandard_status_render_raises (req : Request) (resp : Response)
    (h : httpStatusPhrase resp.status = none) :
    on_success req resp =
      .error (toString resp.status ++ " is not a valid HTTPStatus") := by
  unfold on_success
  rw [h]

/-- Witness for C10: status 599 is not a standard code, so rendering a
successful 599 response fails with the `ValueError` message. -/
theorem nonstandard_status_render_raises_witness :
    httpStatusPhrase 599 = none ∧
    on_success reqEx ⟨599, [("Date", "X")], "hello"⟩ =
      .error "599 is not a valid HTTPStatus" := by
  refine ⟨rfl, ?_⟩
  rw [nonstandard_status_render_raises reqEx ⟨599, [("Date", "X")], "hello"⟩ rfl]
  rfl

/-- Claim C8: every write through `update_rest_response_panel` — throbber
frames and final results alike — marks the view as non-persistent scratch
content, assigns the HTTP-response content type, and clears the selection
after writing; and a write with both region bounds omitted (as issued for
every final result by `on_success` and `on_error`) replaces the full current
extent `[0, size)`, leaving exactly the written text. -/
theorem update_panel_full_extent_and_flags (v : View) (text : List Char)
    (region_start region_end : Option Nat) :
    ((update_rest_response_panel v text region_start region_end).scratch = true ∧
     (update_rest_response_panel v text region_start region_end).contentTypeId =
        some "scope:source.http-response" ∧
     (update_rest_response_panel v text region_start region_end).selection = []) ∧
    (update_rest_response_panel v text none none).content = text := by
  refine ⟨⟨rfl, rfl, rfl⟩, ?_⟩
  simp [update_rest_response_panel, pyOr]

/-- Claim C9: the initial frame seeded by `send_request` is
`"{method} {url}"`, a blank-line separator, and a throbber field whose
character span `[throbber_start, throbber_end)` holds `THROBBER_WIDTH` blank
cells; every non-terminal tick's frame write replaces exactly that span —
preserving the view's total extent, everything before the span and
everything after it — with a string of length exactly `THROBBER_WIDTH`
holding the cursor mark at the current position and blank cells elsewhere.
The buffer is hypothesized only to have the frame's shape — the frame head,
an arbitrary current width-`THROBBER_WIDTH` span `mid`, and the closing
bracket — which covers every non-terminal tick, not just the first: the
initial frame has this shape with the blank span (second conjunct), and each
tick's write re-establishes it with the new throbber string as the span
(first conjunct of the write block), so the theorem applies inductively to
every subsequent tick's buffer as well. -/
theorem throbber_frame_updates_span_only (req : Request) (v : View) (p : Int)
    (mid : List Char)
    (h0 : 0 ≤ p) (h5 : p ≤ (THROBBER_WIDTH : Int) - 1)
    (hmid : mid.length = THROBBER_WIDTH)
    (hv : v.content = frameHead req ++ (mid ++ [']'])) :
    (update_throbber p).length = THROBBER_WIDTH ∧
    (initialFrame req).data =
      frameHead req ++ (List.replicate THROBBER_WIDTH ' ' ++ [']']) ∧
    (let v2 := update_rest_response_panel v (update_throbber p).data
                 (some (throbberStart req)) (some (throbberEnd req))
     v2.content = frameHead req ++ ((update_throbber p).data ++ [']']) ∧
     v2.content.length = v.content.length ∧
     v2.content.take (throbberStart req) = v.content.take (throbberStart req) ∧
     v2.content.drop (throbberEnd req) = v.content.drop (throbberEnd req) ∧
     (v2.content.drop (throbberStart req)).take THROBBER_WIDTH =
       (update_throbber p).data) ∧
    ((initialFrame req).data.drop (throbberStart req)).take THROBBER_WIDTH =
      List.replicate THROBBER_WIDTH ' ' ∧
    (∀ i : Nat, i < THROBBER_WIDTH →
      (update_throbber p).data.get? i = some (if (i : Int) = p then '=' else ' ')) := by
  have hT : (update_throbber p).data.length = THROBBER_WIDTH :=
    update_throbber_length p h0 h5
  have hS : throbberStart req = (frameHead req).length := throbberStart_eq req
  have hE : throbberEnd req = (frameHead req).length + THROBBER_WIDTH :=
    throbberEnd_eq req
  have hE0 : throbberEnd req ≠ 0 := by rw [hE]; simp [THROBBER_WIDTH]
  have hv2content :
      (update_rest_response_panel v (update_throbber p).data
        (some (throbberStart req)) (some (throbberEnd req))).content =
      frameHead req ++ ((update_throbber p).data ++ [']']) := by
    simp only [update_rest_response_panel, pyOr_some_zero,
      pyOr_some _ _ hE0]
    rw [hv, hS, hE]
    rw [List.take_left' rfl]
    have hdrop : ((frameHead req ++ (mid ++ [']'])).drop
        ((frameHead req).length + THROBBER_WIDTH)) = [']'] := by
      rw [← List.append_assoc, List.drop_left']
      simp [List.length_append, hmid]
    rw [hdrop, List.append_assoc]
  refine ⟨hT, ?_, ⟨hv2content, ?_, ?_, ?_, ?_⟩, ?_, ?_⟩
  · rw [initialFrame_data, List.append_assoc]
  · rw [hv2content, hv]
    simp [List.length_append, hT, hmid]
  · rw [hv2content, hv, hS, List.take_left' rfl, List.take_left' rfl]
  · rw [hv2content, hv, hE]
    rw [← List.append_assoc, ← List.append_assoc]
    rw [List.drop_left' (by simp [List.length_append, hT]),
        List.drop_left' (by simp [List.length_append, hmid])]
  · rw [hv2content, hS, List.drop_left' rfl, List.take_left' hT]
  · rw [initialFrame_data, hS, List.append_assoc, List.drop_left' rfl]
    rw [List.take_left' (by simp)]
  · revert h0 h5
    have : THROBBER_WIDTH = 6 := rfl
    rw [this]
    intro h0 h5
    interval_cases p <;> decide

/-- Witness for C9 at a concrete request across two successive ticks: the
first tick's write (position 0) on the initial frame re-establishes the
frame's shape with the new throbber string as the span, and the second
tick's write (position 1) on that resulting buffer preserves the extent and
replaces exactly the span. -/
theorem throbber_frame_updates_span_only_witness :
    viewEx1.content = frameHead reqEx ++ ((update_throbber 0).data ++ [']']) ∧
    (update_rest_response_panel viewEx1 (update_throbber 1).data
        (some (throbberStart reqEx)) (some (throbberEnd reqEx))).content.length =
      viewEx1.content.length ∧
    ((update_rest_response_panel viewEx1 (update_throbber 1).data
        (some (throbberStart reqEx)) (some (throbberEnd reqEx))).content.drop
        (throbberStart reqEx)).take THROBBER_WIDTH = (update_throbber 1).data := by
  have h1 := throbber_frame_updates_span_only reqEx viewEx 0
    (List.replicate THROBBER_WIDTH ' ') (by decide) (by decide) (by decide)
    (by decide)
  obtain ⟨-, -, ⟨hshape1, -, -, -, -⟩, -, -⟩ := h1
  have h2 := throbber_frame_updates_span_only reqEx viewEx1 1
    ((update_throbber 0).data) (by decide) (by decide)
    (update_throbber_length 0 (by decide) (by decide)) hshape1
  obtain ⟨-, -, ⟨-, hlen2, -, -, hspan2⟩, -, -⟩ := h2
  exact ⟨hshape1, hlen2, hspan2⟩

/-- Claim C7: along the worker's execution order, any observed state in which
the completion signal is true (the thread no longer alive) already carries the
fully populated outcome corresponding to the adapter call's actual result —
so completion is never observed true before the adapter call has returned or
raised; the signal is monotone along the trace (never observed false again
after it has become true) and is true in the final state, which `poll`
dispatches with exactly the populated response (on success) or the populated
exception and traceback (on failure). -/
theorem completion_published_after_outcome (req : Request) (r : AdapterResult)
    (tStart tEnd : Rat) :
    (∀ s ∈ workerTrace req r tStart tEnd, s.alive = false → outcomeMatches r s) ∧
    (workerTrace req r tStart tEnd).Chain'
      (fun a b => a.alive = false → b.alive = false) ∧
    (workerTrace req r tStart tEnd).getLast? =
      some (workerFinal req r tStart tEnd) ∧
    (workerFinal req r tStart tEnd).alive = false ∧
    outcomeMatches r (workerFinal req r tStart tEnd) ∧
    (∀ position step : Int,
      poll (workerFinal req r tStart tEnd) position step =
        match r with
        | .ok resp => .dispatchSuccess (some resp)
        | .raises exc tb => .dispatchError (some (exc, tb))) := by
  cases r <;>
    simp [workerTrace, workerFinal, outcomeMatches, poll, startThread,
      HttpRequestThread.run, List.chain'_cons]

/-- Witness for C7 at a concrete successful request: the dead final state is
a member of the trace, is complete, and carries the populated success
outcome. -/
theorem completion_published_after_outcome_witness :
    outcomeMatches (.ok respEx) (workerFinal reqEx (.ok respEx) 0 1) :=
  (completion_published_after_outcome reqEx (.ok respEx) 0 1).1
    (workerFinal reqEx (.ok respEx) 0 1)
    (by simp [workerTrace, workerFinal, startThread, HttpRequestThread.run])
    rfl

/-- Witness for C5 at a concrete successful run: the fresh worker's accessors
fail and the completed state populates exactly the success side. -/
theorem outcome_exactly_one_side_witness :
    ((startThread reqEx).get_response =
        .error ⟨"Attempted to retrieve response before completion"⟩) ∧
    ((startThread reqEx).get_error =
        .error ⟨"Attempted to retrieve error before completion"⟩) ∧
    (let t := (startThread reqEx).run (.ok respEx) 0 1
     ((t.success = some true ∧ t.response.isSome = true ∧ t.error = none) ∨
      (t.success = some false ∧ t.error.isSome = true ∧ t.response = none)) ∧
     ¬(t.response.isSome = true ∧ t.error.isSome = true) ∧
     t.success.isSome = true) :=
  outcome_exactly_one_side reqEx (.ok respEx) 0 1
